import Mathlib

set_option autoImplicit false
set_option linter.unusedVariables false

/-
Shallow embedding of the OAuth backend in src/index.js: the in-memory
pending-session store with its periodic expiry sweep, the callback relay
(GET /oauth/callback), the poll endpoint (GET /oauth/poll), and the two
token-exchange proxies (POST /oauth/token and POST /oauth/refresh).
JavaScript strings are modelled as lists of characters, query and body
parameters as Option values (none = absent/undefined), and the upstream
fetch as an explicit outcome parameter passed to the handler.
-/

namespace OAuthBackend

/-- Strings from the JavaScript source are modelled as lists of characters,
so that every operation is structurally recursive and kernel-evaluable. -/
abbrev Str := List Char

/-- Converts a Lean string literal to the character-list model. -/
def chars (s : String) : Str := s.data

/-- JavaScript truthiness of a possibly-absent string value: undefined and
the empty string are falsy, every other string is truthy. -/
def jsTruthy : Option Str → Bool
  | none => false
  | some s => !s.isEmpty

/-- Models the JavaScript pattern value-or-null, as in the callback relay
storing code-or-null: a falsy value (undefined or empty string) becomes
null, modelled as none. -/
def orNull (o : Option Str) : Option Str :=
  if jsTruthy o then o else none

/-- One pending OAuth session, the value stored in pendingAuthSessions:
fields code, state, error, timestamp from the callback handler. -/
structure AuthRecord where
  code : Option Str
  state : Option Str
  error : Option Str
  timestamp : Nat
deriving DecidableEq, Repr

/-- The in-memory Map pendingAuthSessions, modelled as an association list
from session identifiers to records. All writes go through storeSet, which
keeps keys unique, matching Map.set overwrite semantics. -/
abbrev SessionStore := List (Str × AuthRecord)

/-- Map.get: the record stored under a key, if any. -/
def storeGet : SessionStore → Str → Option AuthRecord
  | [], _ => none
  | (k, v) :: rest, key => if k = key then some v else storeGet rest key

/-- Map.delete: removes the entry stored under a key. -/
def storeDelete : SessionStore → Str → SessionStore
  | [], _ => []
  | (k, v) :: rest, key =>
      if k = key then storeDelete rest key else (k, v) :: storeDelete rest key

/-- Map.set: inserts or overwrites the entry under a key. -/
def storeSet (s : SessionStore) (key : Str) (v : AuthRecord) : SessionStore :=
  (key, v) :: storeDelete s key

/-- Session TTL from the sweep: 10 minutes in milliseconds. -/
def expireTime : Nat := 10 * 60 * 1000

/-- The setInterval cleanup body: deletes every entry whose timestamp is
more than expireTime older than now. Times are in milliseconds. -/
def sweepExpired : SessionStore → Nat → SessionStore
  | [], _ => []
  | (k, v) :: rest, now =>
      if now - v.timestamp > expireTime then sweepExpired rest now
      else (k, v) :: sweepExpired rest now

/-- The analytics counters for one endpoint: total, success, failed. -/
structure Counters where
  total : Nat
  success : Nat
  failed : Nat
deriving DecidableEq, Repr

/-- The analytics object: hashed unique callers plus the two counter sets. -/
structure Analytics where
  uniqueUsers : List Str
  tokenExchanges : Counters
  tokenRefreshes : Counters
deriving DecidableEq, Repr

/-- Set.add on the uniqueUsers set: appends the element when new. -/
def insertUnique (l : List Str) (x : Str) : List Str :=
  if x ∈ l then l else l ++ [x]

/-- The whole mutable process state: the pending-session store and the
analytics object. -/
structure ServerState where
  pendingAuthSessions : SessionStore
  analytics : Analytics
deriving DecidableEq, Repr

/-- The state at process start: empty store, zeroed counters. -/
def initialState : ServerState :=
  { pendingAuthSessions := []
    analytics :=
      { uniqueUsers := []
        tokenExchanges := { total := 0, success := 0, failed := 0 }
        tokenRefreshes := { total := 0, success := 0, failed := 0 } } }

/-- String.prototype.split on a one-character separator, as used by
state.split with the bar delimiter: returns the (nonempty) list of
segments between occurrences of the separator. -/
def splitOnChar (c : Char) : List Char → List (List Char)
  | [] => [[]]
  | x :: xs =>
      if x = c then [] :: splitOnChar c xs
      else
        match splitOnChar c xs with
        | [] => [[x]]
        | y :: ys => (x :: y) :: ys

/-- The decoded state parameter of the callback: csrfState and sessionId,
per the composite format csrfState-bar-sessionId. -/
structure DecodedState where
  csrfState : Option Str
  sessionId : Option Str
deriving DecidableEq, Repr

/-- The state-decoding logic of the callback handler: when state is truthy
and includes the bar delimiter, csrfState is the segment before the first
delimiter and sessionId the segment between the first and second; otherwise
csrfState is the whole value and no sessionId is recovered. -/
def decodeState : Option Str → DecodedState
  | none => { csrfState := none, sessionId := none }
  | some st =>
      if st ≠ [] ∧ '|' ∈ st then
        let parts := splitOnChar '|' st
        { csrfState := parts[0]?, sessionId := parts[1]? }
      else { csrfState := some st, sessionId := none }

/-- The GET /oauth/callback handler, restricted to its store effect (the
HTML page it renders is stateless): decodes state and, when a truthy
sessionId was recovered, stores the auth data under it. -/
def oauthCallback (g : ServerState) (code state error : Option Str) (now : Nat) :
    ServerState :=
  let d := decodeState state
  let newRecord : AuthRecord :=
    { code := orNull code
      state := d.csrfState
      error := orNull error
      timestamp := now }
  match d.sessionId with
  | some sid =>
      if sid ≠ [] then
        { g with pendingAuthSessions := storeSet g.pendingAuthSessions sid newRecord }
      else g
  | none => g

/-- A JSON value appearing in a response body sent by res.json. -/
inductive JVal where
  | str : Str → JVal
  | num : Int → JVal
  | null : JVal
deriving DecidableEq, Repr

/-- JSON serialization of a string-or-null JavaScript value. -/
def jopt : Option Str → JVal
  | none => JVal.null
  | some s => JVal.str s

/-- An HTTP response: status code and JSON body as an ordered list of
key-value pairs; a key absent from the list models a field dropped by
JSON serialization because its value was undefined. -/
structure HttpResponse where
  status : Nat
  body : List (Str × JVal)
deriving DecidableEq, Repr

/-- The 400 response of the poll endpoint when session is missing. -/
def missingSessionResponse : HttpResponse :=
  { status := 400, body := [(chars "error", JVal.str (chars "Missing session parameter"))] }

/-- The poll response when no record is stored under the session id. -/
def pendingResponse : HttpResponse :=
  { status := 200, body := [(chars "status", JVal.str (chars "pending"))] }

/-- The poll response delivering a stored record. -/
def completedResponse (r : AuthRecord) : HttpResponse :=
  { status := 200
    body := [(chars "status", JVal.str (chars "completed")),
             (chars "code", jopt r.code),
             (chars "state", jopt r.state),
             (chars "error", jopt r.error)] }

/-- The GET /oauth/poll handler: 400 when the session parameter is falsy;
otherwise look up the id, answer pending when absent, and on a hit delete
the record and answer completed with its code, state and error. -/
def oauthPoll (g : ServerState) (session : Option Str) : HttpResponse × ServerState :=
  match session with
  | none => (missingSessionResponse, g)
  | some sid =>
      if sid = [] then (missingSessionResponse, g)
      else
        match storeGet g.pendingAuthSessions sid with
        | none => (pendingResponse, g)
        | some authData =>
            (completedResponse authData,
             { g with pendingAuthSessions := storeDelete g.pendingAuthSessions sid })

/-- The JSON body of the upstream token endpoint response, as read by the
handlers: an Option field is none when the key is absent (undefined). -/
structure TokenResponse where
  error : Option Str
  error_description : Option Str
  access_token : Option Str
  refresh_token : Option Str
  expires_in : Option Int
  token_type : Option Str
  scope : Option Str
deriving DecidableEq, Repr

/-- The outcome of the single fetch to the upstream token endpoint: either
a parsed JSON body, or a transport-level failure (fetch rejected or the
body failed to parse), which lands in the catch block. -/
inductive UpstreamOutcome where
  | ok : TokenResponse → UpstreamOutcome
  | transportFailure : UpstreamOutcome
deriving DecidableEq, Repr

/-- A body field whose value may be undefined: JSON serialization drops the
key entirely when the value is absent. -/
def optStrField (k : String) : Option Str → List (Str × JVal)
  | none => []
  | some s => [(chars k, JVal.str s)]

/-- Like optStrField for a numeric field such as expires_in. -/
def optNumField (k : String) : Option Int → List (Str × JVal)
  | none => []
  | some n => [(chars k, JVal.num n)]

/-- The upstream error check in both proxies: data.error is truthy. -/
def upstreamError (data : TokenResponse) : Bool :=
  jsTruthy data.error

/-- The 400 body relaying an upstream rejection: error plus description
(the description key is dropped when error_description is undefined). -/
def rejectionBody (data : TokenResponse) : List (Str × JVal) :=
  (chars "error", jopt data.error) :: optStrField "description" data.error_description

/-- The 200 body of POST /oauth/token on upstream success: exactly the five
relayed fields, each dropped when absent upstream. -/
def tokenSuccessBody (data : TokenResponse) : List (Str × JVal) :=
  optStrField "access_token" data.access_token ++
  optStrField "refresh_token" data.refresh_token ++
  optNumField "expires_in" data.expires_in ++
  optStrField "token_type" data.token_type ++
  optStrField "scope" data.scope

/-- The 200 body of POST /oauth/refresh on upstream success: like the token
body but with no refresh_token field at all. -/
def refreshSuccessBody (data : TokenResponse) : List (Str × JVal) :=
  optStrField "access_token" data.access_token ++
  optNumField "expires_in" data.expires_in ++
  optStrField "token_type" data.token_type ++
  optStrField "scope" data.scope

/-- The entry bookkeeping of POST /oauth/token: total incremented and the
hashed caller IP added to the unique-users set. -/
def bumpExchanges (a : Analytics) (hashedIP : Str) : Analytics :=
  { a with
    tokenExchanges := { a.tokenExchanges with total := a.tokenExchanges.total + 1 }
    uniqueUsers := insertUnique a.uniqueUsers hashedIP }

/-- The failure bookkeeping of POST /oauth/token. -/
def exchangeFailed (a : Analytics) : Analytics :=
  { a with tokenExchanges := { a.tokenExchanges with failed := a.tokenExchanges.failed + 1 } }

/-- The success bookkeeping of POST /oauth/token. -/
def exchangeSucceeded (a : Analytics) : Analytics :=
  { a with tokenExchanges := { a.tokenExchanges with success := a.tokenExchanges.success + 1 } }

/-- The entry bookkeeping of POST /oauth/refresh. -/
def bumpRefreshes (a : Analytics) (hashedIP : Str) : Analytics :=
  { a with
    tokenRefreshes := { a.tokenRefreshes with total := a.tokenRefreshes.total + 1 }
    uniqueUsers := insertUnique a.uniqueUsers hashedIP }

/-- The failure bookkeeping of POST /oauth/refresh. -/
def refreshFailed (a : Analytics) : Analytics :=
  { a with tokenRefreshes := { a.tokenRefreshes with failed := a.tokenRefreshes.failed + 1 } }

/-- The success bookkeeping of POST /oauth/refresh. -/
def refreshSucceeded (a : Analytics) : Analytics :=
  { a with tokenRefreshes := { a.tokenRefreshes with success := a.tokenRefreshes.success + 1 } }

/-- The result of one proxy request: the HTTP response, the process state
afterwards, and how many calls were made to the upstream token endpoint. -/
structure ProxyResult where
  response : HttpResponse
  finalState : ServerState
  upstreamCalls : Nat
deriving DecidableEq, Repr

/-- The POST /oauth/token handler. Analytics are bumped on entry; a falsy
code is rejected with 400 before any upstream call; otherwise exactly one
upstream call is made and its outcome dispatched: truthy data.error gives
a 400 relaying error and description, transport failure gives a 500, and
success gives a 200 relaying the five token fields. The redirect_uri
parameter only feeds the upstream request and the hashedIP only analytics. -/
def oauthToken (g : ServerState) (code redirect_uri : Option Str) (hashedIP : Str)
    (upstream : UpstreamOutcome) : ProxyResult :=
  let a1 := bumpExchanges g.analytics hashedIP
  if jsTruthy code then
    match upstream with
    | UpstreamOutcome.ok data =>
        if upstreamError data then
          { response := { status := 400, body := rejectionBody data }
            finalState := { g with analytics := exchangeFailed a1 }
            upstreamCalls := 1 }
        else
          { response := { status := 200, body := tokenSuccessBody data }
            finalState := { g with analytics := exchangeSucceeded a1 }
            upstreamCalls := 1 }
    | UpstreamOutcome.transportFailure =>
        { response := { status := 500
                        body := [(chars "error", JVal.str (chars "Token exchange failed"))] }
          finalState := { g with analytics := exchangeFailed a1 }
          upstreamCalls := 1 }
  else
    { response := { status := 400
                    body := [(chars "error", JVal.str (chars "Missing authorization code"))] }
      finalState := { g with analytics := exchangeFailed a1 }
      upstreamCalls := 0 }

/-- The POST /oauth/refresh handler, mirroring oauthToken with the refresh
counters, its own error strings, and a success body that never carries a
refresh_token field. -/
def oauthRefresh (g : ServerState) (refresh_token : Option Str) (hashedIP : Str)
    (upstream : UpstreamOutcome) : ProxyResult :=
  let a1 := bumpRefreshes g.analytics hashedIP
  if jsTruthy refresh_token then
    match upstream with
    | UpstreamOutcome.ok data =>
        if upstreamError data then
          { response := { status := 400, body := rejectionBody data }
            finalState := { g with analytics := refreshFailed a1 }
            upstreamCalls := 1 }
        else
          { response := { status := 200, body := refreshSuccessBody data }
            finalState := { g with analytics := refreshSucceeded a1 }
            upstreamCalls := 1 }
    | UpstreamOutcome.transportFailure =>
        { response := { status := 500
                        body := [(chars "error", JVal.str (chars "Token refresh failed"))] }
          finalState := { g with analytics := refreshFailed a1 }
          upstreamCalls := 1 }
  else
    { response := { status := 400
                    body := [(chars "error", JVal.str (chars "Missing refresh token"))] }
      finalState := { g with analytics := refreshFailed a1 }
      upstreamCalls := 0 }

/-- The consistency relation on one endpoint's analytics counters. -/
def countersConsistent (c : Counters) : Prop :=
  c.total = c.success + c.failed

/-- A nonempty string is truthy. -/
theorem jsTruthy_of_ne_nil (s : Str) (h : s ≠ []) : jsTruthy (some s) = true := by
  cases s with
  | nil => exact absurd rfl h
  | cons a l => rfl

/-- Deleting a key makes lookups of that key miss. -/
theorem storeGet_storeDelete_self (s : SessionStore) (k : Str) :
    storeGet (storeDelete s k) k = none := by
  induction s with
  | nil => rfl
  | cons kv rest ih =>
      obtain ⟨k1, v1⟩ := kv
      by_cases h : k1 = k
      · simpa [storeDelete, h] using ih
      · simpa [storeDelete, storeGet, h] using ih

/-- Setting a key makes lookups of that key hit the new record. -/
theorem storeGet_storeSet_self (s : SessionStore) (k : Str) (v : AuthRecord) :
    storeGet (storeSet s k v) k = some v := by
  simp [storeSet, storeGet]

/-- A key absent before a sweep is still absent after it. -/
theorem storeGet_sweepExpired_none (s : SessionStore) (now : Nat) (k : Str)
    (h : storeGet s k = none) : storeGet (sweepExpired s now) k = none := by
  induction s with
  | nil => rfl
  | cons kv rest ih =>
      obtain ⟨k1, v1⟩ := kv
      rw [storeGet] at h
      by_cases hk : k1 = k
      · simp [hk] at h
      · rw [if_neg hk] at h
        by_cases ht : now - v1.timestamp > expireTime
        · simpa [sweepExpired, ht] using ih h
        · simpa [sweepExpired, ht, storeGet, hk] using ih h

/-- The sweep keeps exactly the entries whose timestamp is at most the TTL
old relative to the sweep time, and removes all the others. -/
theorem mem_sweepExpired (s : SessionStore) (now : Nat) (e : Str × AuthRecord) :
    e ∈ sweepExpired s now ↔ e ∈ s ∧ now - e.2.timestamp ≤ expireTime := by
  induction s with
  | nil => simp [sweepExpired]
  | cons kv rest ih =>
      obtain ⟨k1, v1⟩ := kv
      by_cases ht : now - v1.timestamp > expireTime
      · rw [sweepExpired, if_pos ht, ih]
        constructor
        · rintro ⟨hm, hp⟩
          exact ⟨List.mem_cons_of_mem _ hm, hp⟩
        · rintro ⟨hm, hp⟩
          rcases List.mem_cons.mp hm with he | hm2
          · subst he
            exact absurd hp (Nat.not_le.mpr ht)
          · exact ⟨hm2, hp⟩
      · rw [sweepExpired, if_neg ht]
        constructor
        · intro hm
          rcases List.mem_cons.mp hm with he | hm2
          · subst he
            exact ⟨List.mem_cons_self _ _, Nat.le_of_not_lt ht⟩
          · obtain ⟨hm3, hp⟩ := ih.mp hm2
            exact ⟨List.mem_cons_of_mem _ hm3, hp⟩
        · rintro ⟨hm, hp⟩
          rcases List.mem_cons.mp hm with he | hm2
          · subst he
            exact List.mem_cons_self _ _
          · exact List.mem_cons_of_mem _ (ih.mpr ⟨hm2, hp⟩)

/-- splitOnChar never returns the empty list of segments. -/
theorem splitOnChar_ne_nil (c : Char) (l : List Char) : splitOnChar c l ≠ [] := by
  induction l with
  | nil => simp [splitOnChar]
  | cons x xs ih =>
      rw [splitOnChar]
      by_cases h : x = c
      · simp [h]
      · rw [if_neg h]
        cases hr : splitOnChar c xs <;> simp

/-- Splitting a string free of the separator yields that single segment. -/
theorem splitOnChar_of_not_mem (c : Char) (l : List Char) (h : c ∉ l) :
    splitOnChar c l = [l] := by
  induction l with
  | nil => rfl
  | cons x xs ih =>
      rw [List.mem_cons, not_or] at h
      rw [splitOnChar, if_neg (fun e => h.1 e.symm), ih h.2]

/-- Splitting a string whose first separator occurrence follows the prefix
pre yields pre and then the segments of the rest. -/
theorem splitOnChar_append (c : Char) (pre rest : List Char) (h : c ∉ pre) :
    splitOnChar c (pre ++ c :: rest) = pre :: splitOnChar c rest := by
  induction pre with
  | nil => simp [splitOnChar]
  | cons x xs ih =>
      rw [List.mem_cons, not_or] at h
      rw [List.cons_append, splitOnChar, if_neg (fun e => h.1 e.symm), ih h.2]

/-- The decoded form of a composite state value csrfState-bar-sessionId
when neither half contains the delimiter. -/
theorem decodeState_composite (cs sid : Str) (hcs : '|' ∉ cs) (hsid : '|' ∉ sid) :
    decodeState (some (cs ++ '|' :: sid)) =
      { csrfState := some cs, sessionId := some sid } := by
  have hne : cs ++ '|' :: sid ≠ [] := by simp
  have hmem : '|' ∈ cs ++ '|' :: sid := by simp
  rw [decodeState, if_pos ⟨hne, hmem⟩,
    splitOnChar_append _ _ _ hcs, splitOnChar_of_not_mem _ _ hsid]
  rfl

/-- The decoded form of a state value with no delimiter: the whole value is
the csrfState and no sessionId is recovered. -/
theorem decodeState_no_delimiter (st : Str) (h : '|' ∉ st) :
    decodeState (some st) = { csrfState := some st, sessionId := none } := by
  rw [decodeState, if_neg (fun hc => h hc.2)]

/-- C7. Sweep expiry boundary: a record inserted with timestamp T is found
by a plain query (which never consults time, so in particular at
T plus TTL minus epsilon before any sweep); a sweep at T plus TTL plus
epsilon removes it; and in general a sweep retains exactly the entries
whose timestamp is at most TTL old relative to the sweep time, removing
exactly those strictly older than TTL. -/
theorem sweep_expiry_boundary (s : SessionStore) (id : Str) (r : AuthRecord)
    (T eps : Nat) (hts : r.timestamp = T) (heps : 0 < eps) :
    storeGet (storeSet s id r) id = some r
  ∧ storeGet (sweepExpired (storeSet s id r) (T + expireTime + eps)) id = none
  ∧ (∀ (s2 : SessionStore) (now : Nat) (e : Str × AuthRecord),
      e ∈ sweepExpired s2 now ↔ e ∈ s2 ∧ now - e.2.timestamp ≤ expireTime) := by
  refine ⟨storeGet_storeSet_self s id r, ?_, fun s2 now e => mem_sweepExpired s2 now e⟩
  rw [storeSet, sweepExpired, if_pos (by omega)]
  exact storeGet_sweepExpired_none _ _ _ (storeGet_storeDelete_self s id)

/-- Witness for sweep_expiry_boundary at a concrete record and times. -/
theorem sweep_expiry_boundary_witness :
    0 < 1
  ∧ storeGet (storeSet [] (chars "s1")
        { code := some (chars "X"), state := some (chars "abc"), error := none, timestamp := 40 })
        (chars "s1") =
      some { code := some (chars "X"), state := some (chars "abc"), error := none, timestamp := 40 }
  ∧ storeGet (sweepExpired (storeSet [] (chars "s1")
        { code := some (chars "X"), state := some (chars "abc"), error := none, timestamp := 40 })
        (40 + expireTime + 1)) (chars "s1") = none := by
  have h := sweep_expiry_boundary []
    (chars "s1")
    { code := some (chars "X"), state := some (chars "abc"), error := none, timestamp := 40 }
    40 1 rfl (by decide)
  exact ⟨by decide, h.1, h.2.1⟩

/-- C1. Exactly-once delivery via the poll endpoint: after a record is
stored for a (nonempty) session id, the first poll answers 200 with status
completed carrying the record code, state and error and removes the record
from the store, and a second poll for the same id right after answers
status pending and leaves the state unchanged. -/
theorem poll_exactly_once (g : ServerState) (id : Str) (r : AuthRecord) (hid : id ≠ []) :
    (oauthPoll { g with pendingAuthSessions := storeSet g.pendingAuthSessions id r }
        (some id)).1 = completedResponse r
  ∧ storeGet ((oauthPoll { g with pendingAuthSessions := storeSet g.pendingAuthSessions id r }
        (some id)).2).pendingAuthSessions id = none
  ∧ (oauthPoll ((oauthPoll { g with pendingAuthSessions := storeSet g.pendingAuthSessions id r }
        (some id)).2) (some id)).1 = pendingResponse
  ∧ (oauthPoll ((oauthPoll { g with pendingAuthSessions := storeSet g.pendingAuthSessions id r }
        (some id)).2) (some id)).2 =
      (oauthPoll { g with pendingAuthSessions := storeSet g.pendingAuthSessions id r }
        (some id)).2 := by
  have h1 : storeGet (storeSet g.pendingAuthSessions id r) id = some r :=
    storeGet_storeSet_self g.pendingAuthSessions id r
  have hpoll1 :
      oauthPoll { g with pendingAuthSessions := storeSet g.pendingAuthSessions id r }
        (some id) =
      (completedResponse r,
       { g with pendingAuthSessions := storeDelete (storeSet g.pendingAuthSessions id r) id }) := by
    rw [oauthPoll, if_neg hid, h1]
  have h2 : storeGet (storeDelete (storeSet g.pendingAuthSessions id r) id) id = none :=
    storeGet_storeDelete_self (storeSet g.pendingAuthSessions id r) id
  have hpoll2 :
      oauthPoll { g with pendingAuthSessions :=
                    storeDelete (storeSet g.pendingAuthSessions id r) id } (some id) =
      (pendingResponse,
       { g with pendingAuthSessions := storeDelete (storeSet g.pendingAuthSessions id r) id }) := by
    rw [oauthPoll, if_neg hid, h2]
  rw [hpoll1]
  exact ⟨rfl, h2, by rw [hpoll2], by rw [hpoll2]⟩

/-- A concrete pending-session record used by the poll witness. -/
def sampleRecord : AuthRecord :=
  { code := some (chars "X"), state := some (chars "abc"), error := none, timestamp := 7 }

/-- Witness for poll_exactly_once at a concrete store and session id. -/
theorem poll_exactly_once_witness :
    (chars "s1" ≠ [])
  ∧ (oauthPoll { initialState with pendingAuthSessions := storeSet initialState.pendingAuthSessions (chars "s1") sampleRecord } (some (chars "s1"))).1 = completedResponse sampleRecord
  ∧ (oauthPoll ((oauthPoll { initialState with pendingAuthSessions := storeSet initialState.pendingAuthSessions (chars "s1") sampleRecord } (some (chars "s1"))).2) (some (chars "s1"))).1 =
      pendingResponse := by
  have h := poll_exactly_once initialState (chars "s1") sampleRecord (by decide)
  exact ⟨by decide, h.1, h.2.2.1⟩

/-- The composite state value of the C2 counterexample: it contains the
bar delimiter (a single occurrence), but nothing after it. -/
def cexState : Str := chars "abc|"

/-- C2 counterexample. The claim says a callback whose state contains the
delimiter stores a record under the recovered sessionId; for state
abc-bar the delimiter is present (exactly once) yet the store is left
unchanged, because the recovered sessionId is the empty string, which is
falsy. -/
theorem callback_single_delimiter_cex :
    ('|' ∈ cexState ∧ cexState.count '|' = 1)
  ∧ oauthCallback initialState (some (chars "X")) (some cexState) none 5 = initialState := by
  decide

/-- C2 as amended. Callback state decoding: a state of the form
csrfState-bar-sessionId (neither half containing the delimiter) stores,
provided sessionId is nonempty, the record with code-or-null, the
csrfState half as state, error-or-null and the current time under
sessionId; when sessionId is empty the store is unchanged; and a state
with no delimiter leaves the store unchanged as well. -/
theorem callback_state_decoding (g : ServerState) (code error : Option Str) (now : Nat)
    (cs sid : Str) (hcs : '|' ∉ cs) (hsid : '|' ∉ sid) :
    (sid ≠ [] →
      oauthCallback g code (some (cs ++ '|' :: sid)) error now =
        { g with pendingAuthSessions := storeSet g.pendingAuthSessions sid (⟨orNull code, some cs, orNull error, now⟩ : AuthRecord) })
  ∧ (sid = [] → oauthCallback g code (some (cs ++ '|' :: sid)) error now = g)
  ∧ oauthCallback g code (some cs) error now = g := by
  refine ⟨fun hne => ?_, fun hnil => ?_, ?_⟩
  · rw [oauthCallback, decodeState_composite cs sid hcs hsid]
    simp only [if_pos hne]
  · subst hnil
    rw [oauthCallback, decodeState_composite cs [] hcs hsid]
    simp
  · rw [oauthCallback, decodeState_no_delimiter cs hcs]

/-- Witness for callback_state_decoding at the concrete state abc-bar-sess1
from the spec example. -/
theorem callback_state_decoding_witness :
    ('|' ∉ chars "abc" ∧ '|' ∉ chars "sess1" ∧ chars "sess1" ≠ [])
  ∧ oauthCallback initialState (some (chars "X")) (some (chars "abc" ++ '|' :: chars "sess1")) none 7 =
      { initialState with pendingAuthSessions := storeSet initialState.pendingAuthSessions (chars "sess1") (⟨orNull (some (chars "X")), some (chars "abc"), orNull none, 7⟩ : AuthRecord) } := by
  have h := callback_state_decoding initialState (some (chars "X")) none 7
    (chars "abc") (chars "sess1") (by decide) (by decide)
  exact ⟨by decide, h.1 (by decide)⟩

/-- C9. A callback whose state contains the delimiter with nothing after
it recovers the empty session identifier, which is treated like no
session identifier at all: the store is left unchanged. -/
theorem callback_empty_session_suffix (g : ServerState) (code error : Option Str)
    (now : Nat) (cs : Str) (hcs : '|' ∉ cs) :
    oauthCallback g code (some (cs ++ ['|'])) error now = g := by
  have h : cs ++ ['|'] = cs ++ '|' :: ([] : Str) := rfl
  rw [h, oauthCallback, decodeState_composite cs [] hcs (by simp)]
  simp

/-- Witness for callback_empty_session_suffix at the concrete state
abc-bar. -/
theorem callback_empty_session_suffix_witness :
    ('|' ∉ chars "abc")
  ∧ oauthCallback initialState (some (chars "Y")) (some (chars "abc" ++ ['|'])) none 9 =
      initialState := by
  exact ⟨by decide,
    callback_empty_session_suffix initialState (some (chars "Y")) none 9 (chars "abc") (by decide)⟩

/-- C3. Token-exchange success relay: with a truthy code, when the single
upstream call parses to a body with no error field and the five token
fields present, the endpoint answers 200 with a body holding exactly the
five fields access_token, refresh_token, expires_in, token_type, scope
taken from the upstream response, in that order and nothing else. -/
theorem token_success_relay (g : ServerState) (code ru : Option Str) (ip : Str)
    (ed : Option Str) (atk rtk : Str) (ei : Int) (tt sc : Str)
    (hc : jsTruthy code = true) :
    (oauthToken g code ru ip (UpstreamOutcome.ok (⟨none, ed, some atk, some rtk, some ei, some tt, some sc⟩ : TokenResponse))).response =
      { status := 200
        body := [(chars "access_token", JVal.str atk),
                 (chars "refresh_token", JVal.str rtk),
                 (chars "expires_in", JVal.num ei),
                 (chars "token_type", JVal.str tt),
                 (chars "scope", JVal.str sc)] } := by
  simp only [oauthToken, hc, if_true]
  simp [upstreamError, jsTruthy, tokenSuccessBody, optStrField, optNumField]

/-- Witness for token_success_relay at the concrete upstream body of the
spec example. -/
theorem token_success_relay_witness :
    jsTruthy (some (chars "c")) = true
  ∧ (oauthToken initialState (some (chars "c")) none (chars "ip") (UpstreamOutcome.ok (⟨none, none, some (chars "a"), some (chars "r"), some 3599, some (chars "Bearer"), some (chars "cal")⟩ : TokenResponse))).response =
      { status := 200
        body := [(chars "access_token", JVal.str (chars "a")),
                 (chars "refresh_token", JVal.str (chars "r")),
                 (chars "expires_in", JVal.num 3599),
                 (chars "token_type", JVal.str (chars "Bearer")),
                 (chars "scope", JVal.str (chars "cal"))] } := by
  exact ⟨by decide,
    token_success_relay initialState (some (chars "c")) none (chars "ip")
      none (chars "a") (chars "r") 3599 (chars "Bearer") (chars "cal") (by decide)⟩

/-- The upstream body of the C4 counterexample: the error field is present
but holds the empty string, which is falsy. -/
def cexUpstream : TokenResponse :=
  { error := some []
    error_description := some (chars "Bad code")
    access_token := some (chars "a")
    refresh_token := some (chars "r")
    expires_in := some 3599
    token_type := some (chars "Bearer")
    scope := some (chars "cal") }

/-- C4 counterexample. The claim says any upstream response body that
contains an error field is relayed as a 400; with the error field present
but equal to the empty string the handler takes the success branch and
answers 200, because the check is on truthiness, not presence. -/
theorem upstream_rejection_cex :
    cexUpstream.error.isSome = true
  ∧ (oauthToken initialState (some (chars "c")) none (chars "ip")
      (UpstreamOutcome.ok cexUpstream)).response.status = 200
  ∧ ¬ (oauthToken initialState (some (chars "c")) none (chars "ip")
      (UpstreamOutcome.ok cexUpstream)).response.status = 400 := by
  decide

/-- C4 as amended. Upstream rejection pass-through: for a truthy (present
and nonempty) upstream error value with a description present, both
endpoints answer 400 with the body relaying error and error_description
verbatim, and the upstream endpoint was called exactly once (no retry). -/
theorem upstream_rejection_passthrough (g : ServerState) (code ru rt : Option Str)
    (ip : Str) (data : TokenResponse) (e d : Str) (he : e ≠ [])
    (herr : data.error = some e) (hdesc : data.error_description = some d)
    (hc : jsTruthy code = true) (hr : jsTruthy rt = true) :
    ((oauthToken g code ru ip (UpstreamOutcome.ok data)).response =
        { status := 400, body := [(chars "error", JVal.str e), (chars "description", JVal.str d)] }
      ∧ (oauthToken g code ru ip (UpstreamOutcome.ok data)).upstreamCalls = 1)
  ∧ ((oauthRefresh g rt ip (UpstreamOutcome.ok data)).response =
        { status := 400, body := [(chars "error", JVal.str e), (chars "description", JVal.str d)] }
      ∧ (oauthRefresh g rt ip (UpstreamOutcome.ok data)).upstreamCalls = 1) := by
  have herrB : upstreamError data = true := by
    rw [upstreamError, herr]
    exact jsTruthy_of_ne_nil e he
  constructor
  · rw [oauthToken]
    simp [hc, herrB, rejectionBody, herr, hdesc, jopt, optStrField]
  · rw [oauthRefresh]
    simp [hr, herrB, rejectionBody, herr, hdesc, jopt, optStrField]

/-- Witness for upstream_rejection_passthrough at the concrete
invalid_grant body of the spec example. -/
theorem upstream_rejection_passthrough_witness :
    (chars "invalid_grant" ≠ [] ∧ jsTruthy (some (chars "c")) = true ∧ jsTruthy (some (chars "r")) = true)
  ∧ (oauthToken initialState (some (chars "c")) none (chars "ip") (UpstreamOutcome.ok (⟨some (chars "invalid_grant"), some (chars "Bad code"), none, none, none, none, none⟩ : TokenResponse))).response =
      { status := 400
        body := [(chars "error", JVal.str (chars "invalid_grant")),
                 (chars "description", JVal.str (chars "Bad code"))] }
  ∧ (oauthRefresh initialState (some (chars "r")) (chars "ip") (UpstreamOutcome.ok (⟨some (chars "invalid_grant"), some (chars "Bad code"), none, none, none, none, none⟩ : TokenResponse))).upstreamCalls = 1 := by
  have h := upstream_rejection_passthrough initialState (some (chars "c")) none
    (some (chars "r")) (chars "ip")
    (⟨some (chars "invalid_grant"), some (chars "Bad code"), none, none, none, none, none⟩ : TokenResponse)
    (chars "invalid_grant") (chars "Bad code") (by decide) rfl rfl (by decide) (by decide)
  exact ⟨by decide, h.1.1, h.2.2⟩

/-- C5. Missing required field is rejected before any upstream call: with
a falsy code (resp. refresh_token), the endpoint answers 400 with an error
body, makes zero calls to the upstream token endpoint regardless of what
that endpoint would have answered, and leaves the session store untouched
(only the analytics change). -/
theorem missing_field_rejected (g : ServerState) (code ru rt : Option Str) (ip : Str)
    (u v : UpstreamOutcome) (hc : jsTruthy code = false) (hr : jsTruthy rt = false) :
    ((oauthToken g code ru ip u).response =
        { status := 400, body := [(chars "error", JVal.str (chars "Missing authorization code"))] }
      ∧ (oauthToken g code ru ip u).upstreamCalls = 0
      ∧ (oauthToken g code ru ip u).finalState.pendingAuthSessions = g.pendingAuthSessions)
  ∧ ((oauthRefresh g rt ip v).response =
        { status := 400, body := [(chars "error", JVal.str (chars "Missing refresh token"))] }
      ∧ (oauthRefresh g rt ip v).upstreamCalls = 0
      ∧ (oauthRefresh g rt ip v).finalState.pendingAuthSessions = g.pendingAuthSessions) := by
  constructor
  · simp only [oauthToken, hc, Bool.false_eq_true, if_false]
    exact ⟨trivial, trivial, trivial⟩
  · simp only [oauthRefresh, hr, Bool.false_eq_true, if_false]
    exact ⟨trivial, trivial, trivial⟩

/-- Witness for missing_field_rejected with both fields absent. -/
theorem missing_field_rejected_witness :
    (jsTruthy none = false)
  ∧ (oauthToken initialState none none (chars "ip") UpstreamOutcome.transportFailure).response =
      { status := 400, body := [(chars "error", JVal.str (chars "Missing authorization code"))] }
  ∧ (oauthRefresh initialState none (chars "ip") UpstreamOutcome.transportFailure).upstreamCalls = 0 := by
  have h := missing_field_rejected initialState none none none (chars "ip")
    UpstreamOutcome.transportFailure UpstreamOutcome.transportFailure rfl rfl
  exact ⟨rfl, h.1.1, h.2.2.1⟩

/-- C6. Refresh response omits refresh_token: with a truthy refresh_token,
when the upstream succeeds (no error field) and omits refresh_token while
carrying the other four fields, the endpoint answers 200 with a body of
exactly access_token, expires_in, token_type, scope and no refresh_token
key at all. -/
theorem refresh_omits_refresh_token (g : ServerState) (rt : Option Str) (ip : Str)
    (ed : Option Str) (atk : Str) (ei : Int) (tt sc : Str)
    (hr : jsTruthy rt = true) :
    (oauthRefresh g rt ip (UpstreamOutcome.ok (⟨none, ed, some atk, none, some ei, some tt, some sc⟩ : TokenResponse))).response =
      { status := 200
        body := [(chars "access_token", JVal.str atk),
                 (chars "expires_in", JVal.num ei),
                 (chars "token_type", JVal.str tt),
                 (chars "scope", JVal.str sc)] }
  ∧ (∀ w : JVal, (chars "refresh_token", w) ∉
      (oauthRefresh g rt ip (UpstreamOutcome.ok (⟨none, ed, some atk, none, some ei, some tt, some sc⟩ : TokenResponse))).response.body) := by
  have hresp :
      (oauthRefresh g rt ip (UpstreamOutcome.ok (⟨none, ed, some atk, none, some ei, some tt, some sc⟩ : TokenResponse))).response =
      { status := 200
        body := [(chars "access_token", JVal.str atk),
                 (chars "expires_in", JVal.num ei),
                 (chars "token_type", JVal.str tt),
                 (chars "scope", JVal.str sc)] } := by
    simp only [oauthRefresh, hr, if_true]
    simp [upstreamError, jsTruthy, refreshSuccessBody, optStrField, optNumField]
  refine ⟨hresp, fun w => ?_⟩
  rw [hresp]
  intro hmem
  rcases List.mem_cons.mp hmem with h1 | hmem
  · have h1x : chars "refresh_token" = chars "access_token" := congrArg Prod.fst h1
    exact absurd h1x (by decide)
  rcases List.mem_cons.mp hmem with h2 | hmem
  · have h2x : chars "refresh_token" = chars "expires_in" := congrArg Prod.fst h2
    exact absurd h2x (by decide)
  rcases List.mem_cons.mp hmem with h3 | hmem
  · have h3x : chars "refresh_token" = chars "token_type" := congrArg Prod.fst h3
    exact absurd h3x (by decide)
  rcases List.mem_cons.mp hmem with h4 | hmem
  · have h4x : chars "refresh_token" = chars "scope" := congrArg Prod.fst h4
    exact absurd h4x (by decide)
  · exact absurd hmem (List.not_mem_nil _)

/-- Witness for refresh_omits_refresh_token at a concrete upstream body. -/
theorem refresh_omits_refresh_token_witness :
    jsTruthy (some (chars "r")) = true
  ∧ (oauthRefresh initialState (some (chars "r")) (chars "ip") (UpstreamOutcome.ok (⟨none, none, some (chars "a2"), none, some 3599, some (chars "Bearer"), some (chars "cal")⟩ : TokenResponse))).response =
      { status := 200
        body := [(chars "access_token", JVal.str (chars "a2")),
                 (chars "expires_in", JVal.num 3599),
                 (chars "token_type", JVal.str (chars "Bearer")),
                 (chars "scope", JVal.str (chars "cal"))] }
  ∧ (chars "refresh_token", JVal.str (chars "r")) ∉
      (oauthRefresh initialState (some (chars "r")) (chars "ip") (UpstreamOutcome.ok (⟨none, none, some (chars "a2"), none, some 3599, some (chars "Bearer"), some (chars "cal")⟩ : TokenResponse))).response.body := by
  have h := refresh_omits_refresh_token initialState (some (chars "r")) (chars "ip")
    none (chars "a2") 3599 (chars "Bearer") (chars "cal") (by decide)
  exact ⟨by decide, h.1, h.2 (JVal.str (chars "r"))⟩

/-- C8. Status class distinguishes rejection from transport failure: with
the required field truthy, a transport-level failure of the upstream call
yields 500 on both endpoints, an upstream-reported (truthy) error body
yields 400 on both, and the two status codes lie in different hundreds
classes, so the two failure kinds are never conflated. -/
theorem transport_failure_status_class (g : ServerState) (code ru rt : Option Str)
    (ip : Str) (hc : jsTruthy code = true) (hr : jsTruthy rt = true) :
    (oauthToken g code ru ip UpstreamOutcome.transportFailure).response.status = 500
  ∧ (oauthRefresh g rt ip UpstreamOutcome.transportFailure).response.status = 500
  ∧ (∀ data : TokenResponse, upstreamError data = true →
      (oauthToken g code ru ip (UpstreamOutcome.ok data)).response.status = 400
      ∧ (oauthRefresh g rt ip (UpstreamOutcome.ok data)).response.status = 400)
  ∧ (oauthToken g code ru ip UpstreamOutcome.transportFailure).response.status / 100 ≠
      (oauthToken g code ru ip (UpstreamOutcome.ok (⟨some (chars "invalid_grant"), none, none, none, none, none, none⟩ : TokenResponse))).response.status / 100 := by
  have htok : (oauthToken g code ru ip UpstreamOutcome.transportFailure).response.status = 500 := by
    simp only [oauthToken, hc, if_true]
  have href : (oauthRefresh g rt ip UpstreamOutcome.transportFailure).response.status = 500 := by
    simp only [oauthRefresh, hr, if_true]
  have herr : ∀ data : TokenResponse, upstreamError data = true →
      (oauthToken g code ru ip (UpstreamOutcome.ok data)).response.status = 400
      ∧ (oauthRefresh g rt ip (UpstreamOutcome.ok data)).response.status = 400 := by
    intro data hd
    constructor
    · simp only [oauthToken, hc, if_true, hd]
    · simp only [oauthRefresh, hr, if_true, hd]
  refine ⟨htok, href, herr, ?_⟩
  rw [htok, (herr _ (by decide)).1]
  decide

/-- Witness for transport_failure_status_class at concrete inputs. -/
theorem transport_failure_status_class_witness :
    (jsTruthy (some (chars "c")) = true ∧ jsTruthy (some (chars "r")) = true)
  ∧ (oauthToken initialState (some (chars "c")) none (chars "ip") UpstreamOutcome.transportFailure).response.status = 500
  ∧ (oauthRefresh initialState (some (chars "r")) (chars "ip") UpstreamOutcome.transportFailure).response.status = 500 := by
  have h := transport_failure_status_class initialState (some (chars "c")) none
    (some (chars "r")) (chars "ip") (by decide) (by decide)
  exact ⟨by decide, h.1, h.2.1⟩

/-- C10. Analytics counter invariant: each completed token (resp. refresh)
request increments its total counter exactly once and exactly one of
success or failed exactly once, on every path, so the equation
total = success + failed is preserved by both handlers. -/
theorem analytics_counter_invariant (g : ServerState) (code ru rt : Option Str)
    (ip : Str) (u v : UpstreamOutcome) :
    ((countersConsistent g.analytics.tokenExchanges →
        countersConsistent (oauthToken g code ru ip u).finalState.analytics.tokenExchanges)
      ∧ (oauthToken g code ru ip u).finalState.analytics.tokenExchanges.total =
          g.analytics.tokenExchanges.total + 1
      ∧ (oauthToken g code ru ip u).finalState.analytics.tokenExchanges.success +
          (oauthToken g code ru ip u).finalState.analytics.tokenExchanges.failed =
          g.analytics.tokenExchanges.success + g.analytics.tokenExchanges.failed + 1)
  ∧ ((countersConsistent g.analytics.tokenRefreshes →
        countersConsistent (oauthRefresh g rt ip v).finalState.analytics.tokenRefreshes)
      ∧ (oauthRefresh g rt ip v).finalState.analytics.tokenRefreshes.total =
          g.analytics.tokenRefreshes.total + 1
      ∧ (oauthRefresh g rt ip v).finalState.analytics.tokenRefreshes.success +
          (oauthRefresh g rt ip v).finalState.analytics.tokenRefreshes.failed =
          g.analytics.tokenRefreshes.success + g.analytics.tokenRefreshes.failed + 1) := by
  have htok : ∀ w : UpstreamOutcome,
      (oauthToken g code ru ip w).finalState.analytics.tokenExchanges.total =
          g.analytics.tokenExchanges.total + 1
      ∧ (oauthToken g code ru ip w).finalState.analytics.tokenExchanges.success +
          (oauthToken g code ru ip w).finalState.analytics.tokenExchanges.failed =
          g.analytics.tokenExchanges.success + g.analytics.tokenExchanges.failed + 1 := by
    intro w
    cases hc : jsTruthy code
    · simp [oauthToken, hc, exchangeFailed, bumpExchanges]
      omega
    · cases w with
      | transportFailure =>
          simp [oauthToken, hc, exchangeFailed, bumpExchanges]
          omega
      | ok data =>
          cases hd : upstreamError data
          · simp [oauthToken, hc, hd, exchangeSucceeded, bumpExchanges]
            omega
          · simp [oauthToken, hc, hd, exchangeFailed, bumpExchanges]
            omega
  have href : ∀ w : UpstreamOutcome,
      (oauthRefresh g rt ip w).finalState.analytics.tokenRefreshes.total =
          g.analytics.tokenRefreshes.total + 1
      ∧ (oauthRefresh g rt ip w).finalState.analytics.tokenRefreshes.success +
          (oauthRefresh g rt ip w).finalState.analytics.tokenRefreshes.failed =
          g.analytics.tokenRefreshes.success + g.analytics.tokenRefreshes.failed + 1 := by
    intro w
    cases hr : jsTruthy rt
    · simp [oauthRefresh, hr, refreshFailed, bumpRefreshes]
      omega
    · cases w with
      | transportFailure =>
          simp [oauthRefresh, hr, refreshFailed, bumpRefreshes]
          omega
      | ok data =>
          cases hd : upstreamError data
          · simp [oauthRefresh, hr, hd, refreshSucceeded, bumpRefreshes]
            omega
          · simp [oauthRefresh, hr, hd, refreshFailed, bumpRefreshes]
            omega
  refine ⟨⟨fun hcons => ?_, (htok u).1, (htok u).2⟩,
          ⟨fun hcons => ?_, (href v).1, (href v).2⟩⟩
  · have h1 := (htok u).1
    have h2 := (htok u).2
    rw [countersConsistent] at hcons ⊢
    omega
  · have h1 := (href v).1
    have h2 := (href v).2
    rw [countersConsistent] at hcons ⊢
    omega

/-- Witness for analytics_counter_invariant starting from the zeroed
counters of the initial state. -/
theorem analytics_counter_invariant_witness :
    countersConsistent (oauthToken initialState (some (chars "c")) none (chars "ip") UpstreamOutcome.transportFailure).finalState.analytics.tokenExchanges
  ∧ (oauthRefresh initialState (some (chars "r")) (chars "ip") UpstreamOutcome.transportFailure).finalState.analytics.tokenRefreshes.total =
      initialState.analytics.tokenRefreshes.total + 1 := by
  have h := analytics_counter_invariant initialState (some (chars "c")) none
    (some (chars "r")) (chars "ip") UpstreamOutcome.transportFailure UpstreamOutcome.transportFailure
  exact ⟨h.1.1 rfl, h.2.2.1⟩

end OAuthBackend
